import Mathlib

/-!
Shallow embedding of the NetworkMonitor core (src/app/discovery.py,
src/app/snmp.py, and the metrics endpoint of src/app/main.py) together with
proofs about the frozen claims.

External effects are made explicit inputs: the ARP tool's textual output, the
SNMP get/walk responses, and the ping subprocess result are parameters, so
every embedded operation is a pure, executable Lean function.
-/

namespace NetMon

/-! ## Python-style primitive helpers -/

/-- Decimal value of a digit list (used only on all-digit lists). -/
def digitsVal (l : List Char) : Nat :=
  l.foldl (fun a c => a * 10 + (c.toNat - 48)) 0

/-- Whitespace as stripped by Python `str.strip()` (the ASCII cases that
occur here). -/
def isSpaceCh (c : Char) : Bool :=
  c = ' ' || c = '\t' || c = '\n' || c = '\r'

/-- `str.strip()`. -/
def myTrim (l : List Char) : List Char :=
  ((l.dropWhile isSpaceCh).reverse.dropWhile isSpaceCh).reverse

/-- `str.lower()` (ASCII; every name in this development is ASCII). -/
def lowerL (l : List Char) : List Char :=
  l.map Char.toLower

/-- `str.lower()` on strings. -/
def lowerS (s : String) : String :=
  String.mk (lowerL s.data)

/-- `str.split(sep)` for a one-character separator, Python semantics
(`"".split(sep) = [""]`, empty pieces kept). -/
def splitOnChar (sep : Char) : List Char → List (List Char)
  | [] => [[]]
  | c :: t =>
    let r := splitOnChar sep t
    if c = sep then [] :: r
    else
      match r with
      | h :: t' => (c :: h) :: t'
      | [] => [[c]]

/-- Strict lexicographic comparison by code point (Python `str < str`). -/
def lexLt : List Char → List Char → Bool
  | [], [] => false
  | [], _ :: _ => true
  | _ :: _, [] => false
  | a :: as, b :: bs => if a < b then true else if b < a then false else lexLt as bs

/-- Python `int(s)` for plain decimal strings: surrounding whitespace stripped,
optional sign, then a nonempty run of digits. (Underscore digit separators,
accepted by CPython, are not modelled; no index or prefix in this development
uses them.) -/
def pyIntParse (s : String) : Option Int :=
  match myTrim s.data with
  | [] => none
  | c :: rest =>
    if c = '-' then
      if rest ≠ [] ∧ rest.all Char.isDigit then some (-(digitsVal rest : Int)) else none
    else if c = '+' then
      if rest ≠ [] ∧ rest.all Char.isDigit then some ((digitsVal rest : Int)) else none
    else if (c :: rest).all Char.isDigit then some ((digitsVal (c :: rest) : Int)) else none

/-- Does `hay` start with `needle`? -/
def startsL : List Char → List Char → Bool
  | _, [] => true
  | [], _ :: _ => false
  | h :: hs, n :: ns => h = n && startsL hs ns

/-- Does `hay` contain `needle` as a contiguous substring (Python `needle in hay`)? -/
def hasSubL (hay needle : List Char) : Bool :=
  match hay with
  | [] => needle.isEmpty
  | _ :: t => startsL hay needle || hasSubL t needle

/-- Python `needle in hay` on strings. -/
def pyIn (needle hay : String) : Bool :=
  hasSubL hay.data needle.data

/-- Python truthiness of an optional string (`None` and `""` are falsy). -/
def truthyS : Option String → Bool
  | none => false
  | some s => s ≠ ""

/-- Python `x or d` for an optional integer (`None` and `0` are falsy). -/
def pyOrInt (o : Option Int) (d : Int) : Int :=
  match o with
  | none => d
  | some n => if n = 0 then d else n

/-! ## Insertion-ordered dictionaries (Python `dict` semantics) -/

/-- A Python dict as an insertion-ordered association list with unique keys:
assignment to an existing key replaces the value in place, a new key is
appended. -/
abbrev Dict (α : Type) := List (String × α)

/-- `d.get(k)` -/
def dget {α : Type} (d : Dict α) (k : String) : Option α :=
  match d with
  | [] => none
  | (k', v) :: t => if k' = k then some v else dget t k

/-- `d[k] = v` -/
def dset {α : Type} (d : Dict α) (k : String) (v : α) : Dict α :=
  match d with
  | [] => [(k, v)]
  | (k', v') :: t => if k' = k then (k, v) :: t else (k', v') :: dset t k v

/-- `list(d)` — the keys in insertion order. -/
def dkeys {α : Type} (d : Dict α) : List String :=
  d.map Prod.fst

/-! ## Discovery module: src/app/discovery.py -/

/-- Errors surfacing from the discovery path.  `valueError` stands for a raw
Python `ValueError` escaping from `ipaddress` parsing; the remaining
constructors are the `DiscoveryError` messages raised in discovery.py.  The
`NotIPv4` branch of `_resolve_network` is unreachable in this embedding
because only IPv4 literals are modelled. -/
inductive DiscErr where
  | valueError
  | configError
  | subnetTooLarge
  | invalidMode
deriving Repr, DecidableEq

/-- Lowercase hex digit (character class `[0-9a-f]`). -/
def isLowerHex (c : Char) : Bool :=
  c.isDigit || ('a' ≤ c && c ≤ 'f')

/-- `re.fullmatch(r"[0-9a-f]\x7b2\x7d(:[0-9a-f]\x7b2\x7d)\x7b5\x7d", ·)`: exactly six
lowercase-hex pairs separated by colons (17 characters). -/
def macFormat (l : List Char) : Bool :=
  match l with
  | [a, b, s1, c, d, s2, e, f, s3, g, h, s4, i, j, s5, k, m] =>
    [a, b, c, d, e, f, g, h, i, j, k, m].all isLowerHex &&
      [s1, s2, s3, s4, s5].all (· = ':')
  | _ => false

/-- `_normalize_mac` (discovery.py:15): strip, lowercase, hyphens to colons,
require six colon-separated hex pairs, reject the all-zero and broadcast
addresses. -/
def _normalize_mac (value : String) : Option String :=
  let mac := String.mk ((lowerL (myTrim value.data)).map (fun c => if c = '-' then ':' else c))
  if macFormat mac.data = false then none
  else if mac = "00:00:00:00:00:00" || mac = "ff:ff:ff:ff:ff:ff" then none
  else some mac

/-- A dotted-decimal octet as accepted by `ipaddress`: 1–3 digits, value ≤ 255,
no leading zero. -/
def octetOk (l : List Char) : Bool :=
  !l.isEmpty && l.length ≤ 3 && l.all Char.isDigit &&
    (l.head? ≠ some '0' || l = ['0']) && digitsVal l ≤ 255

/-- Parse a dotted-decimal IPv4 literal to its 32-bit value
(`ipaddress.ip_address` for IPv4 strings; IPv6 literals are outside this
embedding and fail the parse, which makes the callers below behave the same
way the source does on them). -/
def parseIPv4 (s : String) : Option Nat :=
  match splitOnChar '.' s.data with
  | [a, b, c, d] =>
    if octetOk a && octetOk b && octetOk c && octetOk d then
      some (((digitsVal a * 256 + digitsVal b) * 256 + digitsVal c) * 256 + digitsVal d)
    else none
  | _ => none

/-- An IPv4 network: the network address (host bits cleared) and the CIDR
prefix length. -/
structure Net where
  addr : Nat
  plen : Nat
deriving Repr, DecidableEq

/-- `ipaddress.ip_network(s, strict=False)` for IPv4 prefix-length notation:
`"a.b.c.d/p"` or a bare address (prefix 32); host bits are masked away.
(The dotted-netmask form of the second component is not modelled.) -/
def parseCIDR (s : String) : Option Net :=
  match splitOnChar '/' s.data with
  | [ip] => (parseIPv4 (String.mk ip)).map (fun a => { addr := a, plen := 32 })
  | [ip, ps] =>
    match parseIPv4 (String.mk ip) with
    | none => none
    | some a =>
      if !ps.isEmpty && ps.all Char.isDigit && digitsVal ps ≤ 32 then
        let p := digitsVal ps
        some { addr := a / 2 ^ (32 - p) * 2 ^ (32 - p), plen := p }
      else none
  | _ => none

/-- `_resolve_network` (discovery.py:24): explicit CIDR wins when truthy, else
a /24 derived from the router address, else a configuration error; networks
with more than 1024 total addresses are rejected. -/
def _resolve_network (router_ip subnet_cidr : Option String) : Except DiscErr Net :=
  let parsed : Except DiscErr Net :=
    if truthyS subnet_cidr then
      match parseCIDR (subnet_cidr.getD "") with
      | none => .error .valueError
      | some n => .ok n
    else if truthyS router_ip then
      match parseCIDR (router_ip.getD "" ++ "/24") with
      | none => .error .valueError
      | some n => .ok n
    else .error .configError
  match parsed with
  | .error e => .error e
  | .ok n => if 2 ^ (32 - n.plen) > 1024 then .error .subnetTooLarge else .ok n

/-- Consume up to `n` leading `'d'` characters, returning how many were taken
and the rest. -/
def takeDs : Nat → List Char → Nat × List Char
  | 0, l => (0, l)
  | Nat.succ n, l =>
    match l with
    | 'd' :: t =>
      let r := takeDs n t
      (r.1 + 1, r.2)
    | _ => (0, l)

/-- One repetition unit of the source's IP pattern.  discovery.py:78 compiles
the RAW string `(?:\\d\x7b1,3\x7d\\.)\x7b3\x7d\\d\x7b1,3\x7d`, so the regex engine sees
`\\` (a literal backslash), `d\x7b1,3\x7d` (one to three literal letters d),
`\\` (a literal backslash again) and `.` (any character but newline) — not a
dotted-decimal address.  This matches that unit: backslash, 1–3 d's,
backslash, one arbitrary non-newline character.  Greedy matching without
backtracking is exact here because the character demanded right after the
`d` run is a backslash, never a `d`. -/
def matchUnit (l : List Char) : Option (Nat × List Char) :=
  match l with
  | '\\' :: t =>
    let r := takeDs 3 t
    if r.1 = 0 then none
    else
      match r.2 with
      | '\\' :: c :: rest => if c = '\n' then none else some (1 + r.1 + 2, rest)
      | _ => none
  | _ => none

/-- Attempted match of the full (buggy) IP pattern at the head of `l`,
returning the number of characters matched. -/
def matchIpAt (l : List Char) : Option Nat :=
  match matchUnit l with
  | none => none
  | some (n1, l1) =>
    match matchUnit l1 with
    | none => none
    | some (n2, l2) =>
      match matchUnit l2 with
      | none => none
      | some (n3, l3) =>
        match l3 with
        | '\\' :: t =>
          let r := takeDs 3 t
          if r.1 = 0 then none else some (n1 + n2 + n3 + 1 + r.1)
        | _ => none

/-- `re.search`: try the matcher at each position left to right and return the
first match. -/
def searchFirst {α : Type} (f : List Char → Option α) : List Char → Option α
  | [] => f []
  | c :: t =>
    match f (c :: t) with
    | some r => some r
    | none => searchFirst f t

/-- `ip_regex.search(line)` with the pattern of discovery.py:78, returning the
matched text (`group(0)`). -/
def ipSearch (l : List Char) : Option String :=
  searchFirst (fun s => (matchIpAt s).map (fun n => String.mk (s.take n))) l

/-- Hex digit of either case (character class `[0-9a-fA-F]`). -/
def isHexCh (c : Char) : Bool :=
  c.isDigit || ('a' ≤ c && c ≤ 'f') || ('A' ≤ c && c ≤ 'F')

/-- Attempted match of `[0-9a-fA-F]\x7b2\x7d(?:[:-][0-9a-fA-F]\x7b2\x7d)\x7b5\x7d` at the
head of the list (fixed 17-character shape). -/
def matchMacAt (l : List Char) : Option String :=
  match l with
  | a :: b :: s1 :: c :: d :: s2 :: e :: f :: s3 :: g :: h :: s4 :: i :: j :: s5 :: k :: m :: _ =>
    if [a, b, c, d, e, f, g, h, i, j, k, m].all isHexCh &&
        [s1, s2, s3, s4, s5].all (fun x => x = ':' || x = '-') then
      some (String.mk [a, b, s1, c, d, s2, e, f, s3, g, h, s4, i, j, s5, k, m])
    else none
  | _ => none

/-- `mac_regex.search(line).group(0)` for the pattern of discovery.py:79. -/
def macSearch (l : List Char) : Option String :=
  searchFirst matchMacAt l

/-- `_read_arp_table` (discovery.py:66) applied to the ARP tool's combined
stdout+stderr text (the subprocess invocation itself is an input here; an
invocation failure, which raises `DiscoveryError`, is not exercised by any
claim).  Per line: search for the IP pattern and the MAC pattern, skip the
line unless both match and the MAC normalizes. -/
def _read_arp_table (output : String) : List (String × String) :=
  (splitOnChar '\n' output.data).filterMap (fun line =>
    match ipSearch line, macSearch line with
    | some ipStr, some macStr =>
      match _normalize_mac macStr with
      | some mac => some (ipStr, mac)
      | none => none
    | _, _ => none)

/-- `ip in network` for a parsed 32-bit address. -/
def inNet (n : Net) (a : Nat) : Bool :=
  n.addr ≤ a && a < n.addr + 2 ^ (32 - n.plen)

/-- The filter of discovery.py:105-111: parse the address string (a parse
failure is skipped, exactly as the `except ValueError: continue` does) and
keep it only when it belongs to the resolved network. -/
def keepEntry (n : Net) (ip : String) : Bool :=
  match parseIPv4 ip with
  | none => false
  | some a => inNet n a

/-- The dedup loop of discovery.py:104-113: insert each in-range entry into an
insertion-ordered dict keyed by the address string, so a later entry for the
same address overwrites the earlier hardware address. -/
def dedupInRange (n : Net) (entries : List (String × String)) : List (String × String) :=
  entries.foldl (fun d e => if keepEntry n e.1 then dset d e.1 e.2 else d) []

/-- `discover_devices` (discovery.py:93).  The ping sweep only warms the OS
neighbor cache; its effect is already reflected in the `arpOutput` input, so
the sweep contributes nothing further to the pure result. -/
def discover_devices (router_ip subnet_cidr : Option String) (mode : String)
    (arpOutput : String) : Except DiscErr (List (String × String)) :=
  match _resolve_network router_ip subnet_cidr with
  | .error e => .error e
  | .ok network =>
    if mode ≠ "arp_only" && mode ≠ "ping_sweep" then .error .invalidMode
    else .ok (dedupInRange network (_read_arp_table arpOutput))

/-! ## SNMP module: src/app/snmp.py -/

def SYS_UPTIME_OID : String := "1.3.6.1.2.1.1.3.0"

def SYS_NAME_OID : String := "1.3.6.1.2.1.1.5.0"

def SYS_DESCR_OID : String := "1.3.6.1.2.1.1.1.0"

def IF_NAME_OID : String := "1.3.6.1.2.1.31.1.1.1.1"

def IF_DESCR_OID : String := "1.3.6.1.2.1.2.2.1.2"

def IF_HC_IN_OID : String := "1.3.6.1.2.1.31.1.1.1.6"

def IF_HC_OUT_OID : String := "1.3.6.1.2.1.31.1.1.1.10"

def IF_IN_OID : String := "1.3.6.1.2.1.2.2.1.10"

def IF_OUT_OID : String := "1.3.6.1.2.1.2.2.1.16"

def IF_OPER_OID : String := "1.3.6.1.2.1.2.2.1.8"

/-- A value delivered by the SNMP library: an integer-like object or a
string-like object.  `int(v)` succeeds on the former and on numeric strings;
`str(v)` renders both. -/
inductive SnmpVal where
  | intV (n : Int)
  | strV (s : String)
deriving Repr, DecidableEq

/-- Python `str(v)`. -/
def pyStr : SnmpVal → String
  | .intV n => toString n
  | .strV s => s

/-- `_safe_int` (snmp.py:111): `int(value)` or `None`. -/
def _safe_int : Option SnmpVal → Option Int
  | none => none
  | some (.intV n) => some n
  | some (.strV s) => pyIntParse s

/-- `OPER_STATUS` (snmp.py:38). -/
def OPER_STATUS (n : Int) : Option String :=
  if n = 1 then some "up"
  else if n = 2 then some "down"
  else if n = 3 then some "testing"
  else if n = 4 then some "unknown"
  else if n = 5 then some "dormant"
  else if n = 6 then some "not_present"
  else if n = 7 then some "lower_layer_down"
  else none

/-- Zero-padded two-digit rendering (`f"\x7b:02\x7d"` on the nonnegative remainders
produced by the divmod chain). -/
def pad2 (n : Int) : String :=
  if 0 ≤ n ∧ n < 10 then "0" ++ toString n else toString n

/-- `_format_uptime` (snmp.py:120).  Python `divmod` is floor division, which
for positive divisors coincides with `Int.ediv`/`Int.emod`. -/
def _format_uptime (seconds : Int) : String :=
  let days := Int.ediv seconds 86400
  let rem := Int.emod seconds 86400
  let hours := Int.ediv rem 3600
  let rem2 := Int.emod rem 3600
  let minutes := Int.ediv rem2 60
  let secs := Int.emod rem2 60
  if days ≠ 0 then
    toString days ++ "d " ++ pad2 hours ++ ":" ++ pad2 minutes ++ ":" ++ pad2 secs
  else pad2 hours ++ ":" ++ pad2 minutes ++ ":" ++ pad2 secs

/-- One entry of the per-interface list built at snmp.py:189-197. -/
structure InterfaceStat where
  index : Option Int
  name : String
  oper_status : String
  in_octets : Option Int
  out_octets : Option Int
deriving Repr, DecidableEq

/-- `_match_interface` (snmp.py:129): first interface whose lowercased name
contains one of the keywords, except that the keyword `"lan"` is skipped on
names that also contain `"wlan"`. -/
def _match_interface (interfaces : List InterfaceStat) (keywords : List String) :
    Option InterfaceStat :=
  match interfaces with
  | [] => none
  | i :: rest =>
    match keywords.find? (fun kw =>
        pyIn kw (lowerS i.name) && !(kw = "lan" && pyIn "wlan" (lowerS i.name))) with
    | some _ => some i
    | none => _match_interface rest keywords

/-- The protocol environment: responses of the SNMP agent as seen through
`_snmp_get` (a value or an `SnmpError` message) and `_snmp_walk` (the
index-to-value dict a walk of that table produces, or an `SnmpError`
message), plus the collection instant `datetime.now(timezone.utc)`. -/
structure SnmpEnv where
  get : String → Except String SnmpVal
  walk : String → Except String (Dict SnmpVal)
  collectedAt : String

/-- What `collect_snmp_metrics` can raise: an `SnmpError`, or the uncaught
Python `TypeError` produced by `sorted` when it compares an `int` key with a
`str` key. -/
inductive CollectErr where
  | snmpErr (msg : String)
  | typeErr
deriving Repr, DecidableEq

/-- snmp.py:153-155: walk the interface-name table, falling back to the legacy
description table when the first walk yields nothing. -/
def selectNames (env : SnmpEnv) : Except String (Dict SnmpVal) :=
  match env.walk IF_NAME_OID with
  | .error e => .error e
  | .ok names => if names.isEmpty then env.walk IF_DESCR_OID else .ok names

/-- snmp.py:157-163: walk the 64-bit octet counters; if either direction is
empty, use the 32-bit tables for both directions and record width 32,
otherwise keep the 64-bit results and record width 64. -/
def selectCounters (env : SnmpEnv) :
    Except String (Dict SnmpVal × Dict SnmpVal × Nat) :=
  match env.walk IF_HC_IN_OID with
  | .error e => .error e
  | .ok hin =>
    match env.walk IF_HC_OUT_OID with
    | .error e => .error e
    | .ok hout =>
      if hin.isEmpty || hout.isEmpty then
        match env.walk IF_IN_OID with
        | .error e => .error e
        | .ok lin =>
          match env.walk IF_OUT_OID with
          | .error e => .error e
          | .ok lout => .ok (lin, lout, 32)
      else .ok (hin, hout, 64)

/-- The sort key `index_key` (snmp.py:172): `int(value)` when that parses,
else the string itself. -/
inductive PyKey where
  | intK (n : Int)
  | strK (s : String)
deriving Repr, DecidableEq

/-- `index_key` (snmp.py:172). -/
def index_key (s : String) : PyKey :=
  match pyIntParse s with
  | some n => .intK n
  | none => .strK s

/-- Python comparison of two sort keys: ints compare numerically, strings
lexicographically by code point, and comparing an `int` with a `str` raises
`TypeError` (the `.error` case). -/
def cmpKey : PyKey → PyKey → Except Unit Ordering
  | .intK a, .intK b => .ok (compare a b)
  | .strK a, .strK b =>
    .ok (if lexLt a.data b.data then .lt else if lexLt b.data a.data then .gt else .eq)
  | _, _ => .error ()

/-- Stable insertion into an already sorted list, propagating a `TypeError`
from any key comparison. -/
def insSorted (x : String) : List String → Except Unit (List String)
  | [] => .ok [x]
  | y :: ys => do
    match ← cmpKey (index_key x) (index_key y) with
    | .lt => pure (x :: y :: ys)
    | _ => do
      let t ← insSorted x ys
      pure (y :: t)

/-- `sorted(l, key=index_key)` as a stable insertion sort with the fallible
comparator.  Which concrete comparisons CPython's sort performs differs, but
the outcome coincides: a homogeneous key set sorts to the same order, and a
mixed int/str key set always forces some int-str comparison in any
comparison sort, hence a `TypeError` either way. -/
def pySorted (l : List String) : Except Unit (List String) :=
  l.foldlM (fun acc x => insSorted x acc) []

/-- The `set(names) | set(in_octets) | set(out_octets) | set(oper_status)`
union of snmp.py:166 as a duplicate-free list.  A Python set iterates in an
unspecified order; the subsequent `sorted` makes the order canonical for the
distinct keys every claim here touches, so first-seen order is a faithful
stand-in. -/
def unionKeys (ls : List (List String)) : List String :=
  ls.foldl (fun acc l => l.foldl (fun a k => if a.contains k then a else a ++ [k]) acc) []

/-- One iteration of the loop at snmp.py:178-197, building the InterfaceStat
for a walk index. -/
def mkStat (names in_octets out_octets oper_status : Dict SnmpVal) (index : String) :
    InterfaceStat :=
  let name_str :=
    match dget names index with
    | some v => pyStr v
    | none => "if" ++ index
  { index := _safe_int (some (.strV index)),
    name := name_str,
    oper_status :=
      match OPER_STATUS (pyOrInt (_safe_int (dget oper_status index)) 0) with
      | some s => s
      | none => "unknown",
    in_octets := _safe_int (dget in_octets index),
    out_octets := _safe_int (dget out_octets index) }

/-- The protocol-mode result dict of snmp.py:206-225.  The last three fields
are absent from the dict until the orchestrator merges the passive
cross-check into it (main.py:126-128), hence they default to `none`. -/
structure Snapshot where
  monitoring_mode : String
  router_ip : String
  status : String
  sys_name : Option String
  sys_descr : Option String
  uptime_seconds : Option Int
  uptime : String
  interface_count : Nat
  interfaces_up : Nat
  wan_status : String
  lan_status : String
  total_in_octets : Int
  total_out_octets : Int
  counter_bits : Nat
  interfaces : List InterfaceStat
  snmp_limited : Bool
  snmp_message : Option String
  collected_at : String
  reachable : Option Bool := none
  latency_ms : Option String := none
  passive_status : Option String := none
deriving Repr, DecidableEq

/-- snmp.py:166-225 given the fetched tables and the sorted index list:
build the per-interface list, the totals and the summary fields, and assemble
the result. -/
def buildSnapshot (rip : String) (env : SnmpEnv) (uptime_ticks : SnmpVal)
    (names in_octets out_octets : Dict SnmpVal) (counter_bits : Nat)
    (oper_status : Dict SnmpVal) (sidx : List String) : Snapshot :=
  let uptime_seconds := _safe_int (some uptime_ticks)
  let sys_name := (env.get SYS_NAME_OID).toOption
  let sys_descr := (env.get SYS_DESCR_OID).toOption
  let interfaces := sidx.map (mkStat names in_octets out_octets oper_status)
  let total_in := interfaces.foldl (fun a i =>
    match i.in_octets with
    | some v => a + v
    | none => a) 0
  let total_out := interfaces.foldl (fun a i =>
    match i.out_octets with
    | some v => a + v
    | none => a) 0
  let interfaces_up := (interfaces.filter (fun i => i.oper_status = "up")).length
  let snmp_limited := interfaces.length = 0
  let wan_iface := _match_interface interfaces ["wan"]
  let lan_iface := _match_interface interfaces ["lan"]
  { monitoring_mode := "snmp",
    router_ip := rip,
    status := "online",
    sys_name := sys_name.map pyStr,
    sys_descr := sys_descr.map pyStr,
    uptime_seconds := uptime_seconds,
    uptime := _format_uptime (pyOrInt uptime_seconds 0),
    interface_count := interfaces.length,
    interfaces_up := interfaces_up,
    wan_status :=
      match wan_iface with
      | some i => i.oper_status
      | none => "unknown",
    lan_status :=
      match lan_iface with
      | some i => i.oper_status
      | none => "unknown",
    total_in_octets := total_in,
    total_out_octets := total_out,
    counter_bits := counter_bits,
    interfaces := interfaces,
    snmp_limited := decide (snmp_limited),
    snmp_message := if snmp_limited then some "SNMP limited to system MIB" else none,
    collected_at := env.collectedAt }

/-- `collect_snmp_metrics` (snmp.py:140).  The community string and port pick
the SNMP session and have no further observable effect once the environment
(the agent's responses) is fixed; `pysnmp` is assumed importable.  The
optional system-name/description gets (snmp.py:150-151) cannot fail and are
read inside `buildSnapshot`; the call order of the network operations is not
observable in this pure model. -/
def collect_snmp_metrics (router_ip community : String) (port : Int) (env : SnmpEnv) :
    Except CollectErr Snapshot :=
  match env.get SYS_UPTIME_OID with
  | .error e => .error (.snmpErr e)
  | .ok uptime_ticks =>
    match selectNames env with
    | .error e => .error (.snmpErr e)
    | .ok names =>
      match selectCounters env with
      | .error e => .error (.snmpErr e)
      | .ok cnt =>
        match env.walk IF_OPER_OID with
        | .error e => .error (.snmpErr e)
        | .ok oper_status =>
          match pySorted (unionKeys [dkeys names, dkeys cnt.1, dkeys cnt.2.1,
              dkeys oper_status]) with
          | .error _ => .error .typeErr
          | .ok sidx =>
            .ok (buildSnapshot router_ip env uptime_ticks names cnt.1 cnt.2.1 cnt.2.2
              oper_status sidx)

/-! ## Passive prober (snmp.py:228-268) and the orchestrator (main.py:109-130) -/

/-- Consume leading digits. -/
def spanDigits (l : List Char) : List Char × List Char :=
  l.span Char.isDigit

/-- Attempted match of `(\d+(?:\.\d+)?)\s*ms` at the head of the list,
returning group 1 (the numeric text).  Greedy matching needs no backtracking
here: after a digit run the next pattern character is never a digit. -/
def latencyAt (l : List Char) : Option String :=
  let p1 := spanDigits l
  if p1.1.isEmpty then none
  else
    let p2 : List Char × List Char :=
      match p1.2 with
      | '.' :: t =>
        let q := spanDigits t
        if q.1.isEmpty then ([], p1.2) else ('.' :: q.1, q.2)
      | _ => ([], p1.2)
    match p2.2.dropWhile Char.isWhitespace with
    | 'm' :: 's' :: _ => some (String.mk (p1.1 ++ p2.1))
    | _ => none

/-- `_parse_latency_ms` (snmp.py:228) up to the final `float()` conversion:
the matched numeric text is kept as text, since no claim observes the numeric
value and the conversion of a `\d+(\.\d+)?` match never fails. -/
def _parse_latency_ms (output : String) : Option String :=
  searchFirst latencyAt output.data

/-- The ping subprocess as seen by `passive_probe`: `none` when the invocation
raised (timeout etc.), otherwise the return code and the combined
stdout+stderr text; plus the collection instant. -/
structure PassiveEnv where
  ping : Option (Int × String)
  collectedAt : String

/-- The passive-mode result dict of snmp.py:260-268.  `snmp_error` is the
extra key the orchestrator attaches on fallback (main.py:123); it is absent
(`none`) as returned by `passive_probe` itself.  `reachable` is always a
genuine boolean in the source (`result.returncode == 0` or `False`), which
the `Bool` type records. -/
structure PassiveResult where
  monitoring_mode : String
  router_ip : String
  status : String
  reachable : Bool
  latency_ms : Option String
  passive_reason : String
  collected_at : String
  snmp_error : Option String := none
deriving Repr, DecidableEq

/-- `passive_probe` (snmp.py:238): one ping; any invocation problem yields
`reachable := false`, `latency := none`.  Never fails. -/
def passive_probe (router_ip reason : String) (env : PassiveEnv) : PassiveResult :=
  let rl : Bool × Option String :=
    match env.ping with
    | some (rc, output) => (rc == 0, _parse_latency_ms output)
    | none => (false, none)
  { monitoring_mode := "passive",
    router_ip := router_ip,
    status := if rl.1 then "online" else "offline",
    reachable := rl.1,
    latency_ms := rl.2,
    passive_reason := reason,
    collected_at := env.collectedAt }

/-- The router-configuration row (models.py `RouterConfig`) as read by the
metrics endpoint. -/
structure RouterConfig where
  router_ip : String
  access_mode : String
  snmp_enabled : Bool
  snmp_community : Option String
  snmp_port : Option Int
  username : Option String := none
  password : Option String := none

/-- The body returned by `get_router_metrics`: a protocol snapshot (with the
passive cross-check merged in) or a passive result. -/
inductive MetricsResult where
  | snmp (s : Snapshot)
  | passive (p : PassiveResult)
deriving Repr, DecidableEq

/-- How `get_router_metrics` can fail: the 404 when no router config exists,
or an uncaught Python exception (the only one reachable in this model is the
`TypeError` of snmp.py:178, which is not an `SnmpError` and therefore not
caught at main.py:121). -/
inductive AppErr where
  | httpNotFound
  | pyError
deriving Repr, DecidableEq

/-- `get_router_metrics` (main.py:109-130). -/
def get_router_metrics (config : Option RouterConfig) (senv : SnmpEnv)
    (penv : PassiveEnv) : Except AppErr MetricsResult :=
  match config with
  | none => .error .httpNotFound
  | some config =>
    if config.snmp_enabled && truthyS config.snmp_community then
      match collect_snmp_metrics config.router_ip (config.snmp_community.getD "")
          (pyOrInt config.snmp_port 161) senv with
      | .error (.snmpErr msg) =>
        let fallback := passive_probe config.router_ip "snmp_error" penv
        .ok (.passive { fallback with snmp_error := some msg })
      | .error .typeErr => .error .pyError
      | .ok metrics =>
        let passive := passive_probe config.router_ip "snmp_enabled" penv
        .ok (.snmp { metrics with
          reachable := some passive.reachable,
          latency_ms := passive.latency_ms,
          passive_status := some passive.status })
    else .ok (.passive (passive_probe config.router_ip "snmp_disabled" penv))

/-! ## Shared helper lemmas -/

/-- Inversion of a successful collection: every fetch stage succeeded and the
snapshot is the one `buildSnapshot` assembles from the fetched tables. -/
theorem collect_ok_inv {rip comm : String} {port : Int} {env : SnmpEnv} {snap : Snapshot}
    (h : collect_snmp_metrics rip comm port env = .ok snap) :
    ∃ ut names cnt oper sidx,
      env.get SYS_UPTIME_OID = .ok ut ∧
      selectNames env = .ok names ∧
      selectCounters env = .ok cnt ∧
      env.walk IF_OPER_OID = .ok oper ∧
      pySorted (unionKeys [dkeys names, dkeys cnt.1, dkeys cnt.2.1, dkeys oper]) = .ok sidx ∧
      snap = buildSnapshot rip env ut names cnt.1 cnt.2.1 cnt.2.2 oper sidx := by
  unfold collect_snmp_metrics at h
  split at h
  next => exact absurd h (by simp)
  next ut hget =>
    split at h
    next => exact absurd h (by simp)
    next names hnames =>
      split at h
      next => exact absurd h (by simp)
      next cnt hcnt =>
        split at h
        next => exact absurd h (by simp)
        next oper hoper =>
          split at h
          next => exact absurd h (by simp)
          next sidx hsidx =>
            injection h with h
            exact ⟨ut, names, cnt, oper, sidx, hget, hnames, hcnt, hoper, hsidx, h.symm⟩

/-- `_match_interface` with the single keyword `"wan"` is the first interface
whose lowercase name contains `"wan"`. -/
theorem match_wan (l : List InterfaceStat) :
    _match_interface l ["wan"] = l.find? (fun i => pyIn "wan" (lowerS i.name)) := by
  induction l with
  | nil => rfl
  | cons i rest ih =>
    unfold _match_interface
    by_cases hp : pyIn "wan" (lowerS i.name) = true
    · simp [List.find?, hp]
    · simp only [Bool.not_eq_true] at hp
      simp [List.find?, hp, ih]

/-- `_match_interface` with the single keyword `"lan"` is the first interface
whose lowercase name contains `"lan"` but not `"wlan"`. -/
theorem match_lan (l : List InterfaceStat) :
    _match_interface l ["lan"] =
      l.find? (fun i => pyIn "lan" (lowerS i.name) && !pyIn "wlan" (lowerS i.name)) := by
  induction l with
  | nil => rfl
  | cons i rest ih =>
    unfold _match_interface
    by_cases hp : (pyIn "lan" (lowerS i.name) && !pyIn "wlan" (lowerS i.name)) = true
    · simp [List.find?, hp]
    · simp only [Bool.not_eq_true] at hp
      simp [List.find?, hp, ih]

theorem buildSnapshot_counter_bits (rip : String) (env : SnmpEnv) (ut : SnmpVal)
    (names inoct outoct : Dict SnmpVal) (cb : Nat) (oper : Dict SnmpVal)
    (sidx : List String) :
    (buildSnapshot rip env ut names inoct outoct cb oper sidx).counter_bits = cb := rfl

theorem buildSnapshot_interfaces (rip : String) (env : SnmpEnv) (ut : SnmpVal)
    (names inoct outoct : Dict SnmpVal) (cb : Nat) (oper : Dict SnmpVal)
    (sidx : List String) :
    (buildSnapshot rip env ut names inoct outoct cb oper sidx).interfaces =
      sidx.map (mkStat names inoct outoct oper) := rfl

theorem buildSnapshot_wan (rip : String) (env : SnmpEnv) (ut : SnmpVal)
    (names inoct outoct : Dict SnmpVal) (cb : Nat) (oper : Dict SnmpVal)
    (sidx : List String) :
    (buildSnapshot rip env ut names inoct outoct cb oper sidx).wan_status =
      (match _match_interface (sidx.map (mkStat names inoct outoct oper)) ["wan"] with
       | some i => i.oper_status
       | none => "unknown") := rfl

theorem buildSnapshot_lan (rip : String) (env : SnmpEnv) (ut : SnmpVal)
    (names inoct outoct : Dict SnmpVal) (cb : Nat) (oper : Dict SnmpVal)
    (sidx : List String) :
    (buildSnapshot rip env ut names inoct outoct cb oper sidx).lan_status =
      (match _match_interface (sidx.map (mkStat names inoct outoct oper)) ["lan"] with
       | some i => i.oper_status
       | none => "unknown") := rfl

theorem dkeys_cons {α : Type} (k' : String) (v' : α) (t : Dict α) :
    dkeys ((k', v') :: t) = k' :: dkeys t := rfl

theorem dset_cons_eq {α : Type} {k' k : String} (h : k' = k) (v' v : α) (t : Dict α) :
    dset ((k', v') :: t) k v = (k, v) :: t := by simp [dset, h]

theorem dset_cons_ne {α : Type} {k' k : String} (h : ¬ k' = k) (v' v : α) (t : Dict α) :
    dset ((k', v') :: t) k v = (k', v') :: dset t k v := by simp [dset, h]

/-- Assignment introduces no key beyond the assigned one. -/
theorem mem_dkeys_dset {α : Type} {d : Dict α} {k : String} {v : α} {a : String}
    (ha : a ∈ dkeys (dset d k v)) : a ∈ dkeys d ∨ a = k := by
  induction d with
  | nil =>
    right
    rcases List.mem_cons.mp ha with h | h
    · exact h
    · exact absurd h (List.not_mem_nil a)
  | cons e t ih =>
    obtain ⟨k', v'⟩ := e
    by_cases hk : k' = k
    · rw [dset_cons_eq hk, dkeys_cons] at ha
      rcases List.mem_cons.mp ha with h | h
      · right; exact h
      · left; rw [dkeys_cons]; exact List.mem_cons_of_mem _ h
    · rw [dset_cons_ne hk, dkeys_cons] at ha
      rcases List.mem_cons.mp ha with h | h
      · left; rw [dkeys_cons]; exact List.mem_cons.mpr (Or.inl h)
      · rcases ih h with h' | h'
        · left; rw [dkeys_cons]; exact List.mem_cons_of_mem _ h'
        · right; exact h'

/-- Assignment keeps the keys duplicate-free. -/
theorem nodup_dkeys_dset {α : Type} {d : Dict α} (hnd : (dkeys d).Nodup) (k : String)
    (v : α) : (dkeys (dset d k v)).Nodup := by
  induction d with
  | nil => simp [dset, dkeys]
  | cons e t ih =>
    obtain ⟨k', v'⟩ := e
    rw [dkeys_cons, List.nodup_cons] at hnd
    by_cases hk : k' = k
    · rw [dset_cons_eq hk, dkeys_cons, List.nodup_cons]
      exact ⟨hk ▸ hnd.1, hnd.2⟩
    · rw [dset_cons_ne hk, dkeys_cons, List.nodup_cons]
      refine ⟨?_, ih hnd.2⟩
      intro hmem
      rcases mem_dkeys_dset hmem with h | h
      · exact hnd.1 h
      · exact hk h

/-- With duplicate-free keys, an entry of `dset d k v` is the assigned pair or
an untouched entry of `d` with a different key. -/
theorem mem_dset {α : Type} {d : Dict α} {k : String} {v : α} {p : String × α}
    (hnd : (dkeys d).Nodup) (hp : p ∈ dset d k v) :
    p = (k, v) ∨ (p ∈ d ∧ ¬ p.1 = k) := by
  induction d with
  | nil =>
    left
    rcases List.mem_cons.mp hp with h | h
    · exact h
    · exact absurd h (List.not_mem_nil p)
  | cons e t ih =>
    obtain ⟨k', v'⟩ := e
    rw [dkeys_cons, List.nodup_cons] at hnd
    by_cases hk : k' = k
    · rw [dset_cons_eq hk] at hp
      rcases List.mem_cons.mp hp with h | h
      · left; exact h
      · right
        refine ⟨List.mem_cons_of_mem _ h, ?_⟩
        intro hc
        apply hnd.1
        rw [hk, ← hc]
        exact List.mem_map_of_mem Prod.fst h
    · rw [dset_cons_ne hk] at hp
      rcases List.mem_cons.mp hp with h | h
      · right
        refine ⟨List.mem_cons.mpr (Or.inl h), ?_⟩
        rw [h]
        exact hk
      · rcases ih hnd.2 h with h' | h'
        · left; exact h'
        · right; exact ⟨List.mem_cons_of_mem _ h'.1, h'.2⟩

/-- Usable host count of an IPv4 network as `ipaddress`'s `hosts()` yields it:
all addresses minus network and broadcast for prefixes up to /30, both
addresses of a /31, the single address of a /32. -/
def usableHosts (p : Nat) : Nat :=
  if p ≤ 30 then 2 ^ (32 - p) - 2 else if p = 31 then 2 else 1

/-- A parsed CIDR has a prefix length of at most 32. -/
theorem parseCIDR_plen_le {s : String} {n : Net} (h : parseCIDR s = some n) :
    n.plen ≤ 32 := by
  unfold parseCIDR at h
  split at h
  · cases hp : parseIPv4 (String.mk _) with
    | none => rw [hp] at h; exact absurd h (by simp)
    | some a =>
      rw [hp] at h
      rw [Option.map_some'] at h
      injection h with h
      subst h
      exact Nat.le_refl 32
  · split at h
    · exact absurd h (by simp)
    · split at h
      next hcond =>
        simp only [Bool.and_eq_true, decide_eq_true_eq] at hcond
        injection h with h
        subst h
        exact hcond.2
      next => exact absurd h (by simp)
  · exact absurd h (by simp)

/-- For prefixes up to /32, the source's total-address-count test and the
spec's usable-host-count test agree: both exceed 1024 exactly when the
prefix is /21 or shorter. -/
theorem pow_usable_equiv : ∀ p : Nat, p ≤ 32 →
    (2 ^ (32 - p) > 1024 ↔ usableHosts p > 1024) := by decide

/-! ## Claim theorems -/

/-- C1: for every monitoring target whose protocol-enabled flag is set and
whose secret is configured, whenever the Protocol Metrics Client fails with a
protocol error, `get_router_metrics` returns (never raises) a passive-mode
result whose diagnostic `snmp_error` field is the non-null error text and
whose `reachable` field is the passive probe's boolean (the field is typed
`Bool` because the source always assigns a genuine boolean there). -/
theorem c1_protocol_failure_yields_passive_result (config : RouterConfig)
    (senv : SnmpEnv) (penv : PassiveEnv) (msg : String)
    (hen : config.snmp_enabled = true)
    (hcom : truthyS config.snmp_community = true)
    (hfail : collect_snmp_metrics config.router_ip (config.snmp_community.getD "")
        (pyOrInt config.snmp_port 161) senv = .error (.snmpErr msg)) :
    ∃ p : PassiveResult,
      get_router_metrics (some config) senv penv = .ok (.passive p) ∧
      p.monitoring_mode = "passive" ∧
      p.snmp_error = some msg ∧
      p.reachable = (passive_probe config.router_ip "snmp_error" penv).reachable := by
  refine ⟨{ passive_probe config.router_ip "snmp_error" penv with snmp_error := some msg },
    ?_, rfl, rfl, rfl⟩
  unfold get_router_metrics
  simp [hen, hcom, hfail]

/-- A target with SNMP enabled and a community configured. -/
def c1Cfg : RouterConfig :=
  { router_ip := "192.168.0.1", access_mode := "local_admin", snmp_enabled := true,
    snmp_community := some "public", snmp_port := some 161 }

/-- An agent whose every get times out: the required uptime get fails, so the
collection fails with an `SnmpError`. -/
def c1FailEnv : SnmpEnv :=
  { get := fun _ => .error "timeout", walk := fun _ => .ok [], collectedAt := "t1" }

/-- A ping subprocess returning 0 with a latency line. -/
def c1PingEnv : PassiveEnv :=
  { ping := some (0, "64 bytes: time=3.5 ms"), collectedAt := "t1" }

/-- Witness for C1 at a concrete failing environment. -/
theorem c1_witness :
    ∃ p : PassiveResult,
      get_router_metrics (some c1Cfg) c1FailEnv c1PingEnv = .ok (.passive p) ∧
      p.monitoring_mode = "passive" ∧
      p.snmp_error = some "timeout" ∧
      p.reachable = (passive_probe c1Cfg.router_ip "snmp_error" c1PingEnv).reachable :=
  c1_protocol_failure_yields_passive_result c1Cfg c1FailEnv c1PingEnv "timeout"
    rfl (by decide) rfl

/-- The neighbor-cache text of the spec's end-to-end scenario: two lines, each
with a dotted-decimal IPv4 token and a valid hardware-address token, both in
192.168.1.0/24. -/
def c2ArpOutput : String :=
  "? (192.168.1.1) at aa:bb:cc:dd:ee:ff [ether] on eth0\n? (192.168.1.50) at 11:22:33:44:55:66 [ether] on eth0"

/-- C2 (code bug): the IP pattern of discovery.py:78 doubles its backslashes
inside a raw string, so it matches only literal `\d` sequences and never a
dotted-decimal address; on the spec's end-to-end input the reader therefore
produces no entries at all, and `discover` returns the empty list instead of
the two claimed pairs. -/
theorem c2_buggy_ip_pattern_empty_discovery :
    _read_arp_table c2ArpOutput = [] ∧
    discover_devices (some "192.168.1.1") (some "192.168.1.0/24") "ping_sweep"
      c2ArpOutput = .ok [] := by
  constructor <;> rfl

/-- C3: over any neighbor entries and resolved range, the dedup stage of
`discover_devices` (its lines 104-113, `dedupInRange` here) returns no two
entries with the same address, only addresses that parse and lie in the
range, and for each returned address the hardware address of the latest
matching entry in tool-output order. -/
theorem c3_discover_dedup_invariants (n : Net) (entries : List (String × String)) :
    (dkeys (dedupInRange n entries)).Nodup ∧
    (∀ p ∈ dedupInRange n entries, keepEntry n p.1 = true) ∧
    (∀ p ∈ dedupInRange n entries,
      (entries.filter (fun e => e.1 == p.1)).getLast? = some p) := by
  induction entries using List.reverseRecOn with
  | nil =>
    refine ⟨by simp [dedupInRange, dkeys], ?_, ?_⟩ <;>
      (intro p hp; exact absurd hp (List.not_mem_nil p))
  | append_singleton es e ih =>
    obtain ⟨ih1, ih2, ih3⟩ := ih
    have hstep : dedupInRange n (es ++ [e]) =
        (if keepEntry n e.1 then dset (dedupInRange n es) e.1 e.2
         else dedupInRange n es) := by
      simp [dedupInRange, List.foldl_append]
    by_cases hk : keepEntry n e.1 = true
    · rw [hstep, if_pos hk]
      refine ⟨nodup_dkeys_dset ih1 e.1 e.2, ?_, ?_⟩
      · intro p hp
        rcases mem_dset ih1 hp with h | h
        · rw [h]; exact hk
        · exact ih2 p h.1
      · intro p hp
        rcases mem_dset ih1 hp with h | h
        · subst h
          rw [List.filter_append, List.filter_singleton]
          simp [List.getLast?_concat]
        · rw [List.filter_append, List.filter_singleton]
          have hne : (e.1 == p.1) = false := by
            rw [beq_eq_false_iff_ne]
            exact fun hc => h.2 hc.symm
          rw [hne]
          simpa using ih3 p h.1
    · rw [hstep, if_neg hk]
      refine ⟨ih1, ih2, ?_⟩
      intro p hp
      rw [List.filter_append, List.filter_singleton]
      have hne : (e.1 == p.1) = false := by
        rw [beq_eq_false_iff_ne]
        intro hc
        exact hk (hc ▸ ih2 p hp)
      rw [hne]
      simpa using ih3 p hp

/-- 192.168.1.0/24. -/
def c3Net : Net := { addr := 3232235776, plen := 24 }

/-- Two entries for the same in-range address (later one should win) and one
out-of-range entry. -/
def c3Entries : List (String × String) :=
  [("192.168.1.5", "aa:aa:aa:aa:aa:aa"), ("192.168.1.5", "bb:bb:bb:bb:bb:bb"),
   ("10.0.0.1", "cc:cc:cc:cc:cc:cc")]

/-- Witness for C3: on the concrete entries the returned pair for
192.168.1.5 carries the later hardware address. -/
theorem c3_witness :
    ("192.168.1.5", "bb:bb:bb:bb:bb:bb") ∈ dedupInRange c3Net c3Entries ∧
    (c3Entries.filter (fun e =>
        e.1 == ("192.168.1.5", "bb:bb:bb:bb:bb:bb").1)).getLast? =
      some ("192.168.1.5", "bb:bb:bb:bb:bb:bb") :=
  ⟨by decide, (c3_discover_dedup_invariants c3Net c3Entries).2.2 _ (by decide)⟩

/-- C4: for an explicit (IPv4) CIDR, resolution fails `SubnetTooLarge`
exactly when the usable-host count exceeds 1024.  The source compares the
total address count `2 ^ (32 - plen)` against 1024, but for every prefix up
to /32 that test and the usable-host test agree (`pow_usable_equiv`), which
is what the claim requires. -/
theorem c4_subnet_too_large_iff_usable_hosts (cidr : String) (n : Net)
    (h : parseCIDR cidr = some n) :
    (_resolve_network none (some cidr) = .error .subnetTooLarge ↔
      usableHosts n.plen > 1024) := by
  have hle : n.plen ≤ 32 := parseCIDR_plen_le h
  have hne : cidr ≠ "" := by
    intro he
    rw [he] at h
    rw [show parseCIDR "" = none from rfl] at h
    exact Option.noConfusion h
  rw [← pow_usable_equiv n.plen hle]
  unfold _resolve_network
  have ht : truthyS (some cidr) = true := by simp [truthyS, hne]
  rw [ht]
  simp only [if_true, Option.getD_some, h]
  by_cases hc : 2 ^ (32 - n.plen) > 1024
  · simp [hc]
  · simp [hc]

/-- Witness for C4 at the /16 of the spec's examples (usable hosts 65534). -/
theorem c4_witness :
    parseCIDR "192.168.0.0/16" = some { addr := 3232235520, plen := 16 } ∧
    (_resolve_network none (some "192.168.0.0/16") = .error .subnetTooLarge ↔
      usableHosts ({ addr := 3232235520, plen := 16 } : Net).plen > 1024) :=
  ⟨by decide, c4_subnet_too_large_iff_usable_hosts "192.168.0.0/16" _ (by decide)⟩

/-- C5 counterexample: with no router address and no CIDR, an invalid mode
fails with the configuration error, not `InvalidDiscoveryMode` — the source
resolves the network (discovery.py:98) before validating the mode
(discovery.py:99), so mode validation does not precede everything else. -/
theorem c5_counterexample :
    discover_devices none none "bogus" "" = .error .configError ∧
    DiscErr.configError ≠ DiscErr.invalidMode := by
  exact ⟨rfl, by decide⟩

/-- C5 as amended: an invalid mode fails with `InvalidDiscoveryMode` whenever
network resolution succeeds; resolution errors take precedence because
resolution runs first. -/
theorem c5_amended_invalid_mode (r c : Option String) (m arp : String) (net : Net)
    (hres : _resolve_network r c = .ok net)
    (hm1 : m ≠ "arp_only") (hm2 : m ≠ "ping_sweep") :
    discover_devices r c m arp = .error .invalidMode := by
  unfold discover_devices
  rw [hres]
  simp [hm1, hm2]

/-- Witness for the amended C5 on a resolvable /30. -/
theorem c5_witness :
    discover_devices none (some "10.0.0.0/30") "bogus" "" = .error .invalidMode :=
  c5_amended_invalid_mode none (some "10.0.0.0/30") "bogus" ""
    { addr := 167772160, plen := 30 } rfl (by decide) (by decide)

/-- C6: if either high-capacity walk is empty, the counters used are the
legacy 32-bit tables and the recorded width is 32; when both high-capacity
walks are non-empty the width is 64 and the high-capacity results are kept;
and any successful snapshot's single `counter_bits` field (uniform for the
snapshot by construction) is exactly the width the selection recorded. -/
theorem c6_counter_width_fallback (env : SnmpEnv) (hin hout : Dict SnmpVal)
    (h1 : env.walk IF_HC_IN_OID = .ok hin) (h2 : env.walk IF_HC_OUT_OID = .ok hout) :
    ((hin.isEmpty || hout.isEmpty) = true →
      ∀ lin lout, env.walk IF_IN_OID = .ok lin → env.walk IF_OUT_OID = .ok lout →
        selectCounters env = .ok (lin, lout, 32)) ∧
    ((hin.isEmpty || hout.isEmpty) = false →
      selectCounters env = .ok (hin, hout, 64)) ∧
    (∀ rip comm port snap, collect_snmp_metrics rip comm port env = .ok snap →
      ∀ din dout bits, selectCounters env = .ok (din, dout, bits) →
        snap.counter_bits = bits) := by
  refine ⟨?_, ?_, ?_⟩
  · intro he lin lout hl1 hl2
    unfold selectCounters
    rw [h1, h2]
    simp [he, hl1, hl2]
  · intro he
    unfold selectCounters
    rw [h1, h2]
    simp [he]
  · intro rip comm port snap h din dout bits hsel
    obtain ⟨ut, names, cnt, oper, sidx, _, _, hcnt, _, _, hsnap⟩ := collect_ok_inv h
    subst hsnap
    rw [hcnt] at hsel
    injection hsel with hsel
    subst hsel
    rfl

/-- An agent with empty high-capacity counter tables but populated legacy
tables. -/
def c6Env : SnmpEnv :=
  { get := fun oid => if oid = SYS_UPTIME_OID then .ok (.intV 5) else .error "noSuch",
    walk := fun oid =>
      if oid = IF_IN_OID then .ok [("1", .intV 7)]
      else if oid = IF_OUT_OID then .ok [("1", .intV 9)]
      else .ok [],
    collectedAt := "t6" }

/-- Witness for C6: the fallback selects the legacy tables with width 32. -/
theorem c6_witness :
    selectCounters c6Env = .ok ([("1", SnmpVal.intV 7)], [("1", SnmpVal.intV 9)], 32) :=
  (c6_counter_width_fallback c6Env [] [] rfl rfl).1 rfl _ _ rfl rfl

/-- A target of the metrics endpoint for the C7 scenario. -/
def c7Cfg : RouterConfig :=
  { router_ip := "192.168.1.1", access_mode := "local_admin", snmp_enabled := true,
    snmp_community := some "public", snmp_port := none }

/-- An agent whose name walk yields the integer-parsing index `"1"` while the
status walk yields the non-parsing index `"1.1"` (a deeper OID suffix). -/
def c7Env : SnmpEnv :=
  { get := fun oid => if oid = SYS_UPTIME_OID then .ok (.intV 100) else .error "noSuch",
    walk := fun oid =>
      if oid = IF_NAME_OID then .ok [("1", .strV "eth0")]
      else if oid = IF_OPER_OID then .ok [("1.1", .intV 1)]
      else .ok [],
    collectedAt := "t7" }

/-- C7 (code bug): a mixed index set makes `sorted(indices, key=index_key)`
compare an `int` key with a `str` key, which raises `TypeError` in Python 3;
building the InterfaceStat list therefore does not succeed, and because a
`TypeError` is not an `SnmpError` it even escapes `get_router_metrics`. -/
theorem c7_mixed_index_sort_raises :
    collect_snmp_metrics "192.168.1.1" "public" 161 c7Env = .error .typeErr ∧
    get_router_metrics (some c7Cfg) c7Env { ping := none, collectedAt := "t7" } =
      .error .pyError := by
  exact ⟨rfl, rfl⟩

/-- C8: in every successful snapshot, the WAN status is that of the first
interface (in the snapshot's index order) whose lowercase name contains
`"wan"`, the LAN status that of the first whose lowercase name contains
`"lan"` but not `"wlan"`, and `"unknown"` when no interface matches. -/
theorem c8_wan_lan_classification (rip comm : String) (port : Int) (env : SnmpEnv)
    (snap : Snapshot) (h : collect_snmp_metrics rip comm port env = .ok snap) :
    snap.wan_status =
      (match snap.interfaces.find? (fun i => pyIn "wan" (lowerS i.name)) with
       | some i => i.oper_status
       | none => "unknown") ∧
    snap.lan_status =
      (match snap.interfaces.find? (fun i =>
          pyIn "lan" (lowerS i.name) && !pyIn "wlan" (lowerS i.name)) with
       | some i => i.oper_status
       | none => "unknown") := by
  obtain ⟨ut, names, cnt, oper, sidx, _, _, _, _, _, hsnap⟩ := collect_ok_inv h
  subst hsnap
  rw [buildSnapshot_wan, buildSnapshot_lan, buildSnapshot_interfaces, match_wan, match_lan]
  exact ⟨rfl, rfl⟩

/-- An agent exposing a wired LAN, a WAN and a wireless LAN interface. -/
def c8Env : SnmpEnv :=
  { get := fun oid => if oid = SYS_UPTIME_OID then .ok (.intV 60) else .error "noSuch",
    walk := fun oid =>
      if oid = IF_NAME_OID then
        .ok [("1", .strV "lan0"), ("2", .strV "wan1"), ("3", .strV "wlan0")]
      else if oid = IF_HC_IN_OID then .ok [("1", .intV 1)]
      else if oid = IF_HC_OUT_OID then .ok [("1", .intV 2)]
      else if oid = IF_OPER_OID then .ok [("1", .intV 1), ("2", .intV 2)]
      else .ok [],
    collectedAt := "t8" }

/-- Witness for C8 on the concrete three-interface agent. -/
theorem c8_witness :
    ∃ snap, collect_snmp_metrics "192.168.0.1" "public" 161 c8Env = .ok snap ∧
      (snap.wan_status =
        (match snap.interfaces.find? (fun i => pyIn "wan" (lowerS i.name)) with
         | some i => i.oper_status
         | none => "unknown") ∧
      snap.lan_status =
        (match snap.interfaces.find? (fun i =>
            pyIn "lan" (lowerS i.name) && !pyIn "wlan" (lowerS i.name)) with
         | some i => i.oper_status
         | none => "unknown")) :=
  ⟨_, rfl, c8_wan_lan_classification "192.168.0.1" "public" 161 c8Env _ rfl⟩

/-- An agent whose only walk index is the non-integer string `"x"`. -/
def c9Env : SnmpEnv :=
  { get := fun oid => if oid = SYS_UPTIME_OID then .ok (.intV 100) else .error "noSuch",
    walk := fun oid => if oid = IF_NAME_OID then .ok [("x", .strV "eth0")] else .ok [],
    collectedAt := "t9" }

/-- The snapshot the source builds for `c9Env`. -/
def c9Snap : Snapshot :=
  { monitoring_mode := "snmp", router_ip := "192.168.1.1", status := "online",
    sys_name := none, sys_descr := none, uptime_seconds := some 100,
    uptime := "00:01:40", interface_count := 1, interfaces_up := 0,
    wan_status := "unknown", lan_status := "unknown",
    total_in_octets := 0, total_out_octets := 0, counter_bits := 32,
    interfaces := [{ index := none, name := "eth0", oper_status := "unknown",
                     in_octets := none, out_octets := none }],
    snmp_limited := false, snmp_message := none, collected_at := "t9" }

/-- C9 counterexample: for the walk index `"x"`, which does not parse as an
integer, the source stores `_safe_int("x") = None` in the `index` field —
`null`, not the original opaque string `"x"` the claim promises. -/
theorem c9_counterexample :
    collect_snmp_metrics "192.168.1.1" "public" 161 c9Env = .ok c9Snap ∧
    c9Snap.interfaces = [{ index := none, name := "eth0", oper_status := "unknown",
                           in_octets := none, out_octets := none }] := by
  exact ⟨rfl, rfl⟩

/-- C9 as amended: each InterfaceStat's `index` field is the numeric value of
its walk index when that index parses as an integer, and `null` (not the
original string) otherwise. -/
theorem c9_amended_index_field (rip comm : String) (port : Int) (env : SnmpEnv)
    (snap : Snapshot) (h : collect_snmp_metrics rip comm port env = .ok snap) :
    ∃ (names inoct outoct oper : Dict SnmpVal) (sidx : List String),
      snap.interfaces = sidx.map (mkStat names inoct outoct oper) ∧
      (∀ ix n, pyIntParse ix = some n →
        (mkStat names inoct outoct oper ix).index = some n) ∧
      (∀ ix, pyIntParse ix = none →
        (mkStat names inoct outoct oper ix).index = none) := by
  obtain ⟨ut, names, cnt, oper, sidx, _, _, _, _, _, hsnap⟩ := collect_ok_inv h
  subst hsnap
  refine ⟨names, cnt.1, cnt.2.1, oper, sidx,
    buildSnapshot_interfaces rip env ut names cnt.1 cnt.2.1 cnt.2.2 oper sidx, ?_, ?_⟩
  · intro ix n hix
    simp [mkStat, _safe_int, hix]
  · intro ix hix
    simp [mkStat, _safe_int, hix]

/-- Witness for the amended C9 at the concrete agent of the counterexample. -/
theorem c9_witness :
    ∃ (names inoct outoct oper : Dict SnmpVal) (sidx : List String),
      c9Snap.interfaces = sidx.map (mkStat names inoct outoct oper) ∧
      (∀ ix n, pyIntParse ix = some n →
        (mkStat names inoct outoct oper ix).index = some n) ∧
      (∀ ix, pyIntParse ix = none →
        (mkStat names inoct outoct oper ix).index = none) :=
  c9_amended_index_field "192.168.1.1" "public" 161 c9Env c9Snap rfl

/-- C10: whenever the effective name mapping (the interface-name walk, or the
legacy description walk when the former was empty) has no entry for a
collected index, the built InterfaceStat's name is `"if"` immediately
followed by the index. -/
theorem c10_missing_name_fallback (rip comm : String) (port : Int) (env : SnmpEnv)
    (snap : Snapshot) (h : collect_snmp_metrics rip comm port env = .ok snap) :
    ∃ (names inoct outoct oper : Dict SnmpVal) (sidx : List String),
      selectNames env = .ok names ∧
      snap.interfaces = sidx.map (mkStat names inoct outoct oper) ∧
      ∀ ix, dget names ix = none →
        (mkStat names inoct outoct oper ix).name = "if" ++ ix := by
  obtain ⟨ut, names, cnt, oper, sidx, _, hnames, _, _, _, hsnap⟩ := collect_ok_inv h
  subst hsnap
  refine ⟨names, cnt.1, cnt.2.1, oper, sidx, hnames,
    buildSnapshot_interfaces rip env ut names cnt.1 cnt.2.1 cnt.2.2 oper sidx, ?_⟩
  intro ix hix
  simp [mkStat, hix]

/-- An agent whose name walks are both empty while the status walk knows
index 3. -/
def c10Env : SnmpEnv :=
  { get := fun oid => if oid = SYS_UPTIME_OID then .ok (.intV 5) else .error "noSuch",
    walk := fun oid => if oid = IF_OPER_OID then .ok [("3", .intV 1)] else .ok [],
    collectedAt := "t10" }

/-- Witness for C10: on the concrete agent the unnamed index 3 is reported as
`"if3"`. -/
theorem c10_witness :
    ∃ snap, collect_snmp_metrics "192.168.0.1" "public" 161 c10Env = .ok snap ∧
      (∃ (names inoct outoct oper : Dict SnmpVal) (sidx : List String),
        selectNames c10Env = .ok names ∧
        snap.interfaces = sidx.map (mkStat names inoct outoct oper) ∧
        ∀ ix, dget names ix = none →
          (mkStat names inoct outoct oper ix).name = "if" ++ ix) ∧
      snap.interfaces.map InterfaceStat.name = ["if3"] :=
  ⟨_, rfl, c10_missing_name_fallback "192.168.0.1" "public" 161 c10Env _ rfl, rfl⟩

end NetMon
